import Mathlib

/-!
Verification development for the claude-squad session orchestration core:
the command executor (services/executor, services/tmux/exec_adapter.go),
the session orchestrator (services/session), the JSON storage repository
(services/storage/json_repository.go) and the auto-accept daemon.
Each definition is a shallow embedding of the corresponding Go function;
external services (git, tmux, storage I/O) appear as explicit oracles,
and Go wall-clock reads appear as an explicit logical clock argument.
-/

deriving instance DecidableEq for Except

namespace CSquad

/-- Session status enum (services/session Status: Running, Ready, Loading, Paused). -/
inductive Status where
  | running
  | ready
  | loading
  | paused
deriving Repr, DecidableEq

/-- Session record (services/session Session struct). Timestamps are a logical
clock (Nat); Go time.Time ordering is all the claims use. -/
structure Session where
  id : String
  title : String
  path : String
  branch : String
  status : Status
  program : String
  height : Int
  width : Int
  createdAt : Nat
  updatedAt : Nat
  autoYes : Bool
  prompt : String
deriving Repr, DecidableEq

/-! ## CommandExecutor (services/executor/executor.go, services/tmux/exec_adapter.go
part defining execImpl)

ExecutorOptions durations are Go time.Duration values, i.e. nanosecond counts,
embedded as Int. -/

/-- ExecutorOptions (services/executor/executor.go). DefaultEnv, WorkingDir and
Logger are omitted: they do not affect attempt counts, exit codes or timeouts. -/
structure ExecutorOptions where
  defaultTimeout : Int
  maxConcurrent : Int
  captureOutput : Bool
  retryCount : Int
  retryDelay : Int
  retryOnErrors : List Int
deriving Repr, DecidableEq

/-- The options NewExecutor substitutes for a nil pointer (also the options of
NewDefaultExecutor): 120 seconds default timeout, MaxConcurrent 10,
CaptureOutput true; the retry fields keep their Go zero values. -/
def defaultExecutorOptions : ExecutorOptions :=
  { defaultTimeout := 120 * 1000000000
    maxConcurrent := 10
    captureOutput := true
    retryCount := 0
    retryDelay := 0
    retryOnErrors := [] }

/-- Option normalisation performed by NewExecutor (exec_adapter.go lines
664-682): nil opts are replaced by the defaults, and MaxConcurrent of zero or
less is replaced by 10. -/
def newExecutorOptions (opts : Option ExecutorOptions) : ExecutorOptions :=
  let o := match opts with
    | none => defaultExecutorOptions
    | some o => o
  if o.maxConcurrent ≤ 0 then { o with maxConcurrent := 10 } else o

/-- Outcome of one call of execCmd.Run() inside the Execute retry loop.
exitError models a *exec.ExitError carrying a syscall.WaitStatus exit code;
alreadyStarted models the plain error os/exec returns from a second Start/Run
on the same exec.Cmd value (the Cmd is created once, before the loop). -/
inductive RunError where
  | exitError (code : Int)
  | alreadyStarted
deriving Repr, DecidableEq

/-- Mutable loop state of execImpl.Execute: whether the single shared exec.Cmd
has been started, how many times the external program actually ran, the err
and exitCode variables of the Go loop body. -/
structure AttemptState where
  started : Bool
  runs : Nat
  err : Option RunError
  exitCode : Int
deriving Repr, DecidableEq

/-- One iteration of the loop body up to and including the exit-code
classification (exec_adapter.go lines 754-766). behavior gives the exit code
of the n-th actual run of the external program. A Run on an already-started
Cmd does not run the program; it returns a plain (non ExitError) error, which
the classification maps to exit code -1. -/
def runSharedCmd (behavior : Nat → Int) (s : AttemptState) : AttemptState :=
  if s.started then
    { s with err := some RunError.alreadyStarted, exitCode := -1 }
  else
    let code := behavior s.runs
    if code = 0 then
      { s with started := true, runs := s.runs + 1, err := none, exitCode := 0 }
    else
      { s with started := true, runs := s.runs + 1,
               err := some (RunError.exitError code), exitCode := code }

/-- The retry loop of execImpl.Execute (exec_adapter.go lines 746-783).
remaining counts the attempts still allowed after the current one
(retries - attempt); the loop continues only when the exit code is in
RetryOnErrors and attempts remain. -/
def retryLoop (retryOnErrors : List Int) (behavior : Nat → Int) :
    Nat → AttemptState → AttemptState
  | remaining, s =>
    let s1 := runSharedCmd behavior s
    match s1.err with
    | none => s1
    | some _ =>
      if retryOnErrors.contains s1.exitCode then
        match remaining with
        | 0 => s1
        | r + 1 => retryLoop retryOnErrors behavior r s1
      else s1

/-- What Execute returns plus the instrumentation the claims need: the exit
code and error of the last attempt, the number of times the external program
actually ran, and the timeout passed to context.WithTimeout. -/
structure ExecOutcome where
  exitCode : Int
  runs : Nat
  err : Option RunError
  timeoutUsed : Int
deriving Repr, DecidableEq

/-- execImpl.Execute (exec_adapter.go lines 686-804) after semaphore
acquisition: timeout selection (lines 696-699), RetryCount clamping (lines
741-744) and the retry loop over the single exec.Cmd created at line 706.
Output capture, logging and RetryDelay sleeping do not affect the outcome
fields and are omitted. The semaphore itself is modelled separately below. -/
def execute (opts : ExecutorOptions) (cmdTimeout : Int) (behavior : Nat → Int) :
    ExecOutcome :=
  let timeout := if cmdTimeout = 0 then opts.defaultTimeout else cmdTimeout
  let retries := if opts.retryCount < 0 then 0 else opts.retryCount.toNat
  let final := retryLoop opts.retryOnErrors behavior retries
    { started := false, runs := 0, err := none, exitCode := 0 }
  { exitCode := final.exitCode, runs := final.runs, err := final.err,
    timeoutUsed := timeout }

/-- C2: a command configured with RetryCount = 2 and retryable exit code 1,
whose program always exits 1, is attempted exactly 3 times and the returned
Result.ExitCode is 1. The code contradicts this: exec.CommandContext creates
one exec.Cmd before the loop and the loop calls Run on that same value every
attempt, so the second Run fails immediately with the plain error os/exec
returns for a reused Cmd, the program runs only once, the error is not an
ExitError so the exit code becomes -1, which is not retryable, and the loop
stops. The returned outcome has runs = 1 and ExitCode = -1, not 3 and 1. -/
theorem execute_retry_reuses_spent_cmd :
    execute { defaultExecutorOptions with retryCount := 2, retryOnErrors := [1] }
      0 (fun _ => 1)
    = { exitCode := -1, runs := 1, err := some RunError.alreadyStarted,
        timeoutUsed := 120 * 1000000000 } := rfl

/-- C7: NewExecutor replaces MaxConcurrent of zero or less by the floor 10
(for a nil options pointer as well); Execute treats a negative RetryCount
exactly like RetryCount 0; and a command Timeout of zero makes Execute use
the executor's configured default timeout rather than no timeout. -/
theorem executor_numeric_edge_semantics :
    (∀ o : ExecutorOptions, o.maxConcurrent ≤ 0 →
        (newExecutorOptions (some o)).maxConcurrent = 10)
  ∧ (newExecutorOptions none).maxConcurrent = 10
  ∧ (∀ o : ExecutorOptions, ∀ t : Int, ∀ b : Nat → Int, o.retryCount < 0 →
        execute o t b = execute { o with retryCount := 0 } t b)
  ∧ (∀ o : ExecutorOptions, ∀ b : Nat → Int,
        (execute o 0 b).timeoutUsed = o.defaultTimeout) := by
  refine ⟨fun o h => ?_, rfl, fun o t b h => ?_, fun o b => ?_⟩
  · simp [newExecutorOptions, if_pos h]
  · simp only [execute]
    have h0 : ¬ ((0 : Int) < 0) := by norm_num
    rw [if_pos h, if_neg h0]
    norm_num
  · simp [execute]

/-- Witness for the C7 theorem at concrete inputs: options with
MaxConcurrent -3 are normalised to 10, RetryCount -2 behaves like 0, and a
zero command timeout uses the 120-second default. -/
theorem executor_numeric_edge_semantics_witness :
    (newExecutorOptions (some { defaultExecutorOptions with maxConcurrent := -3 })).maxConcurrent = 10
  ∧ execute { defaultExecutorOptions with retryCount := -2 } 7 (fun _ => 1)
      = execute { defaultExecutorOptions with retryCount := 0 } 7 (fun _ => 1)
  ∧ (execute defaultExecutorOptions 0 (fun _ => 1)).timeoutUsed = 120 * 1000000000 :=
  ⟨executor_numeric_edge_semantics.1 _ (by norm_num),
   executor_numeric_edge_semantics.2.2.1 _ 7 _ (by norm_num),
   executor_numeric_edge_semantics.2.2.2 _ _⟩

/-! ## Daemon auto-accept loop (daemon package)

Go strings are byte strings; the prompt patterns and the claims are ASCII, so
List Char with Go len as List.length is a faithful embedding. -/

/-- The fixed prompt pattern list of Daemon.shouldRespond. -/
def promptPatterns : List (List Char) :=
  [ "[Y/n]".toList, "(y/N)".toList, "Continue?".toList, "Proceed?".toList,
    "Press Enter".toList, "press enter".toList, "Hit enter".toList,
    "hit enter".toList, ">>> ".toList, "claude> ".toList, "aider> ".toList,
    "> ".toList ]

/-- containsPattern from the daemon package: equality, or a strict-suffix
check text[len(text)-len(pattern):] == pattern. -/
def containsPattern (text pattern : List Char) : Bool :=
  decide (0 < text.length) && decide (0 < pattern.length) &&
    (text == pattern ||
      (decide (pattern.length < text.length) &&
        text.drop (text.length - pattern.length) == pattern))

/-- The Go slice expression s[i:]. A negative index, or an index beyond
len(s), is a runtime panic, modelled as none. -/
def goSliceFrom (s : List Char) (i : Int) : Option (List Char) :=
  if i < 0 then none
  else if (s.length : Int) < i then none
  else some (s.drop i.toNat)

/-- The pattern loop of Daemon.shouldRespond: for each pattern with
len(output) > len(pattern) it takes tail := output[len(output)-len(pattern)-10:]
and returns true if containsPattern(tail, pattern); none models the panic of
the slice expression when its start index is negative. -/
def shouldRespondAux (output : List Char) : List (List Char) → Option Bool
  | [] => some false
  | p :: rest =>
    if p.length < output.length then
      match goSliceFrom output ((output.length : Int) - (p.length : Int) - 10) with
      | none => none
      | some tail =>
        if containsPattern tail p then some true else shouldRespondAux output rest
    else shouldRespondAux output rest

/-- Daemon.shouldRespond over the fixed pattern list. -/
def shouldRespond (output : List Char) : Option Bool :=
  shouldRespondAux output promptPatterns

/-- If every pattern whose length is below the output length leaves at least
pattern length + 10 characters of output, no slice start index is negative
and the pattern loop returns a boolean. -/
theorem shouldRespondAux_isSome (output : List Char) (ps : List (List Char))
    (h : ∀ p ∈ ps, p.length < output.length → p.length + 10 ≤ output.length) :
    (shouldRespondAux output ps).isSome = true := by
  induction ps with
  | nil => rfl
  | cons p rest ih =>
    have hrest : ∀ q ∈ rest, q.length < output.length → q.length + 10 ≤ output.length :=
      fun q hq => h q (List.mem_cons_of_mem p hq)
    simp only [shouldRespondAux]
    by_cases hl : p.length < output.length
    · rw [if_pos hl]
      have hsafe : p.length + 10 ≤ output.length := h p (List.mem_cons_self p rest) hl
      have hslice : goSliceFrom output ((output.length : Int) - (p.length : Int) - 10)
          = some (output.drop ((output.length : Int) - (p.length : Int) - 10).toNat) := by
        unfold goSliceFrom
        rw [if_neg (by omega), if_neg (by omega)]
      rw [hslice]
      show (if containsPattern
            (output.drop ((output.length : Int) - (p.length : Int) - 10).toNat) p = true
          then some true else shouldRespondAux output rest).isSome = true
      by_cases hc : containsPattern
          (output.drop ((output.length : Int) - (p.length : Int) - 10).toNat) p = true
      · rw [if_pos hc]; rfl
      · rw [if_neg hc]; exact ih hrest
    · rw [if_neg hl]; exact ih hrest

/-- C10 counterexample: the claim says shouldRespond returns a boolean for
every output string, including outputs whose length exceeds a pattern's
length by fewer than 10 characters. For the 5-character output consisting of
a, b, c, greater-than, space, the first pattern longer checks fail, then for
the 4-character pattern of three greater-than signs and a space the slice
start index is 5 - 4 - 10 = -9, a panicking slice expression: the function
does not return at all. -/
theorem shouldRespond_panics_on_short_output :
    shouldRespond ("abc> ".toList) = none := by decide

/-- C10 amended: shouldRespond returns a boolean for
every output in which each pattern shorter than the output leaves at least
pattern length + 10 trailing characters (in particular every output of
length at most 2 or at least 21); an output whose length exceeds some
applicable pattern's length by fewer than 10 characters can instead drive
the slice start index negative, which panics. -/
theorem shouldRespond_total_when_slices_in_range (output : List Char)
    (h : ∀ p ∈ promptPatterns, p.length < output.length →
        p.length + 10 ≤ output.length) :
    (shouldRespond output).isSome = true :=
  shouldRespondAux_isSome output promptPatterns h

/-- Witness for the amended C10 theorem at a concrete 29-character output. -/
theorem shouldRespond_total_witness :
    (shouldRespond ("this is a long line of output".toList)).isSome = true :=
  shouldRespond_total_when_slices_in_range _ (by decide)

/-! ## Daemon tick (Daemon.processSessions / Daemon.processSession)

The daemon environment packages the daemon's local session cache and the
orchestrator answers the tick observes. SendInput's result is logged and
ignored by the code, so the send outcome is part of the environment but the
processing functions never consult it. -/

/-- Result of orchestrator.GetOutput as seen by the daemon. -/
inductive FetchResult where
  | ok (output : List Char)
  | err
deriving Repr, DecidableEq

/-- Environment of one daemon tick: the locally cached session record status
(none when the id is absent from the local map) and the GetOutput answer. -/
structure DaemonEnv where
  localStatus : String → Option Status
  getOutput : String → FetchResult

/-- External calls one Daemon.processSession call makes: how many GetOutput
fetches and how many SendInput newline submissions. -/
structure TickCalls where
  fetches : Nat
  sends : Nat
deriving Repr, DecidableEq

/-- Daemon.processSession: missing or non Ready/Running sessions are skipped
with no orchestrator call; otherwise the output is fetched, a fetch error
returns early (logging rate-limited, not modelled), and a heuristic match
sends one newline (the send error, if any, is logged and ignored; the final
GetSession local-cache refresh does not affect these counts and is omitted).
none models the panic of shouldRespond propagating out of the call. -/
def processSession (env : DaemonEnv) (id : String) : Option TickCalls :=
  match env.localStatus id with
  | none => some { fetches := 0, sends := 0 }
  | some st =>
    if st ≠ Status.running ∧ st ≠ Status.ready then
      some { fetches := 0, sends := 0 }
    else
      match env.getOutput id with
      | FetchResult.err => some { fetches := 1, sends := 0 }
      | FetchResult.ok output =>
        match shouldRespond output with
        | none => none
        | some true => some { fetches := 1, sends := 1 }
        | some false => some { fetches := 1, sends := 0 }

/-- Daemon.processSessions: the sequential per-tick loop over the snapshot of
local session ids. A panic in one processSession aborts the whole tick (the
Bool component); every other outcome lets the loop continue. -/
def processSessions (env : DaemonEnv) :
    List String → List (String × TickCalls) × Bool
  | [] => ([], false)
  | id :: rest =>
    match processSession env id with
    | none => ([], true)
    | some c =>
      let r := processSessions env rest
      ((id, c) :: r.1, r.2)

/-- C8: on a daemon tick, a session whose locally cached status is neither
Ready nor Running (or which is absent) is skipped with no orchestrator call;
a processed session gets exactly one fetch, and exactly one newline is sent
precisely when the heuristic matches; a fetch error still yields a normal
(non-aborting) outcome with no send, and any non-aborting outcome lets the
remaining sessions of the tick be processed unchanged; and the send outcome
is never consulted, so a send error cannot influence the tick either. -/
theorem daemon_tick_session_isolation :
    (∀ env : DaemonEnv, ∀ id st, env.localStatus id = some st →
        st ≠ Status.running → st ≠ Status.ready →
        processSession env id = some { fetches := 0, sends := 0 })
  ∧ (∀ env : DaemonEnv, ∀ id, env.localStatus id = none →
        processSession env id = some { fetches := 0, sends := 0 })
  ∧ (∀ env : DaemonEnv, ∀ id st output b, env.localStatus id = some st →
        (st = Status.running ∨ st = Status.ready) →
        env.getOutput id = FetchResult.ok output →
        shouldRespond output = some b →
        processSession env id = some { fetches := 1, sends := if b then 1 else 0 })
  ∧ (∀ env : DaemonEnv, ∀ id st, env.localStatus id = some st →
        (st = Status.running ∨ st = Status.ready) →
        env.getOutput id = FetchResult.err →
        processSession env id = some { fetches := 1, sends := 0 })
  ∧ (∀ env : DaemonEnv, ∀ id rest c, processSession env id = some c →
        processSessions env (id :: rest) =
          ((id, c) :: (processSessions env rest).1, (processSessions env rest).2)) := by
  refine ⟨?_, ?_, ?_, ?_, ?_⟩
  · intro env id st hst hr hy
    simp [processSession, hst, if_pos (And.intro hr hy)]
  · intro env id hst
    simp [processSession, hst]
  · intro env id st output b hst hok hout hresp
    have hcond : ¬ (st ≠ Status.running ∧ st ≠ Status.ready) := by
      rcases hok with h1 | h1 <;> simp [h1]
    cases b <;> simp [processSession, hst, if_neg hcond, hout, hresp]
  · intro env id st hst hok hout
    have hcond : ¬ (st ≠ Status.running ∧ st ≠ Status.ready) := by
      rcases hok with h1 | h1 <;> simp [h1]
    simp [processSession, hst, if_neg hcond, hout]
  · intro env id rest c hc
    simp [processSessions, hc]

/-- Witness for the C8 theorem on a concrete two-session tick: a paused
session is skipped, a fetch error for the first processed session still lets
the second session of the tick run, and a matching prompt sends one newline. -/
theorem daemon_tick_session_isolation_witness :
    processSession
      { localStatus := fun _ => some Status.paused, getOutput := fun _ => FetchResult.err }
      "a" = some { fetches := 0, sends := 0 }
  ∧ processSession
      { localStatus := fun _ => some Status.ready, getOutput := fun _ => FetchResult.err }
      "a" = some { fetches := 1, sends := 0 }
  ∧ processSession
      { localStatus := fun _ => some Status.ready,
        getOutput := fun _ => FetchResult.ok ("press enter to continue if ok [Y/n]".toList) }
      "a" = some { fetches := 1, sends := 1 }
  ∧ processSessions
      { localStatus := fun _ => some Status.ready, getOutput := fun _ => FetchResult.err }
      ["a", "b"]
      = ([("a", { fetches := 1, sends := 0 }), ("b", { fetches := 1, sends := 0 })], false) := by
  refine ⟨?_, ?_, ?_, ?_⟩
  · exact daemon_tick_session_isolation.1 _ "a" Status.paused rfl (by decide) (by decide)
  · exact daemon_tick_session_isolation.2.2.2.1 _ "a" Status.ready rfl (Or.inr rfl) rfl
  · exact daemon_tick_session_isolation.2.2.1 _ "a" Status.ready
      ("press enter to continue if ok [Y/n]".toList) true rfl (Or.inr rfl) rfl (by decide)
  · have h1 : processSession
        { localStatus := fun _ => some Status.ready, getOutput := fun _ => FetchResult.err }
        "a" = some { fetches := 1, sends := 0 } :=
      daemon_tick_session_isolation.2.2.2.1 _ "a" Status.ready rfl (Or.inr rfl) rfl
    have h2 : processSession
        { localStatus := fun _ => some Status.ready, getOutput := fun _ => FetchResult.err }
        "b" = some { fetches := 1, sends := 0 } :=
      daemon_tick_session_isolation.2.2.2.1 _ "b" Status.ready rfl (Or.inr rfl) rfl
    rw [daemon_tick_session_isolation.2.2.2.2 _ "a" ["b"] _ h1,
        daemon_tick_session_isolation.2.2.2.2 _ "b" [] _ h2]
    rfl

/-! ## SessionOrchestrator (services/session orchestratorImpl) and the JSON
storage repository (services/storage/json_repository.go)

The orchestrator's in-memory session cache (a Go map) and the repository's
persisted record set are embedded as association lists keyed by session id.
External git/tmux/storage calls appear as explicit oracle fields. -/

/-- Lookup in a Go map embedded as an association list. -/
def lookupSession (m : List (String × Session)) (id : String) : Option Session :=
  (m.find? (fun p => p.1 == id)).map Prod.snd

/-- Update of the entry of an id already in the map (Go map assignment;
the callers below only use it on present keys). -/
def setAssoc (m : List (String × Session)) (id : String) (v : Session) :
    List (String × Session) :=
  m.map (fun p => if p.1 == id then (p.1, v) else p)

/-- The two stores UpdateSessionStatus touches: the orchestrator cache map and
the repository's persisted records. -/
structure OrchStores where
  cache : List (String × Session)
  records : List (String × Session)
deriving Repr, DecidableEq

/-- jsonRepository.UpdateStatus (json_repository.go lines 328-338): Get the
record (error when absent), set its Status and a fresh UpdatedAt from its own
clock read, then Update, whose file write can fail (failUpdate injects that
I/O failure, leaving the records unchanged). -/
def storageUpdateStatus (failUpdate : Bool) (records : List (String × Session))
    (id : String) (st : Status) (now : Nat) :
    Except String (List (String × Session)) :=
  match lookupSession records id with
  | none => Except.error ("session not found: " ++ id)
  | some r =>
    if failUpdate then Except.error "failed to write sessions file"
    else Except.ok (setAssoc records id { r with status := st, updatedAt := now })

/-- orchestratorImpl.UpdateSessionStatus (part_008 lines 371-385): under the
lock, look the session up in the cache only (error when absent), mutate the
cached record's Status and UpdatedAt in place, then call the repository's
UpdateStatus. The cache mutation happens before the storage call and is not
rolled back when storage fails. The repository's own clock read happens after
the orchestrator's, hence now + 1. -/
def updateSessionStatus (failUpdate : Bool) (s : OrchStores) (id : String)
    (st : Status) (now : Nat) : Except String Unit × OrchStores :=
  match lookupSession s.cache id with
  | none => (Except.error ("session not found: " ++ id), s)
  | some sess =>
    let cache2 := setAssoc s.cache id { sess with status := st, updatedAt := now }
    match storageUpdateStatus failUpdate s.records id st (now + 1) with
    | Except.error e => (Except.error e, { s with cache := cache2 })
    | Except.ok recs => (Except.ok (), { cache := cache2, records := recs })

/-- Looking up the id just written by setAssoc yields the written record,
provided the id was present. -/
theorem lookupSession_setAssoc (m : List (String × Session)) (id : String)
    (v s : Session) (h : lookupSession m id = some s) :
    lookupSession (setAssoc m id v) id = some v := by
  induction m with
  | nil => simp [lookupSession] at h
  | cons p t ih =>
    by_cases hp : p.1 == id
    · simp [lookupSession, setAssoc, List.find?, hp]
    · have hm : lookupSession t id = some s := by
        simpa [lookupSession, List.find?, hp] using h
      have := ih hm
      simpa [lookupSession, setAssoc, List.find?, hp] using this

/-- A sample session record used by concrete counterexamples below. -/
def sampleLoadingSession : Session :=
  { id := "s1", title := "t", path := "p", branch := "b",
    status := Status.loading, program := "prog", height := 0, width := 0,
    createdAt := 0, updatedAt := 0, autoYes := false, prompt := "" }

/-- Sample stores holding the sample session in the cache and the records. -/
def sampleStores : OrchStores :=
  { cache := [("s1", sampleLoadingSession)],
    records := [("s1", sampleLoadingSession)] }

/-- C5 counterexample: the claim says that when UpdateSessionStatus returns an
error, neither the cached entry nor the persisted record has changed. With
the sample session cached and persisted as Loading and the persistence write
failing, the call returns an error, yet the cached entry already holds the
new Ready status and the refreshed UpdatedAt, while the record is unchanged:
the cache change is not rolled back, so the error clause of the claim is
false. -/
theorem updateSessionStatus_error_mutates_cache :
    (updateSessionStatus true sampleStores "s1" Status.ready 5).1
      = Except.error "failed to write sessions file"
  ∧ lookupSession (updateSessionStatus true sampleStores "s1" Status.ready 5).2.cache "s1"
      = some { sampleLoadingSession with status := Status.ready, updatedAt := 5 }
  ∧ lookupSession (updateSessionStatus true sampleStores "s1" Status.ready 5).2.records "s1"
      = some sampleLoadingSession
  ∧ sampleLoadingSession.status ≠ Status.ready := by decide

/-- C5 amended: when UpdateSessionStatus succeeds, both the cached entry and
the persisted record hold the new status, each with a refreshed UpdatedAt
from its own clock read, and the two statuses agree. When the session id is
not cached, the call errors and nothing has changed. But when the
persistence write fails, the cached entry has already taken the new status
and UpdatedAt while the persisted record is unchanged: the two stores
diverge until the next successful write. -/
theorem updateSessionStatus_cases (f : Bool) (s : OrchStores) (id : String)
    (st : Status) (now : Nat) :
    (lookupSession s.cache id = none →
        updateSessionStatus f s id st now
          = (Except.error ("session not found: " ++ id), s))
  ∧ (∀ sess r, lookupSession s.cache id = some sess →
        lookupSession s.records id = some r → f = false →
        updateSessionStatus f s id st now
          = (Except.ok (),
             { cache := setAssoc s.cache id { sess with status := st, updatedAt := now },
               records := setAssoc s.records id { r with status := st, updatedAt := now + 1 } })
        ∧ lookupSession (updateSessionStatus f s id st now).2.cache id
            = some { sess with status := st, updatedAt := now }
        ∧ lookupSession (updateSessionStatus f s id st now).2.records id
            = some { r with status := st, updatedAt := now + 1 })
  ∧ (∀ sess, lookupSession s.cache id = some sess →
        (f = true ∨ lookupSession s.records id = none) →
        (updateSessionStatus f s id st now).2.records = s.records
        ∧ (updateSessionStatus f s id st now).2.cache
            = setAssoc s.cache id { sess with status := st, updatedAt := now }
        ∧ ∃ e, (updateSessionStatus f s id st now).1 = Except.error e) := by
  refine ⟨?_, ?_, ?_⟩
  · intro h
    simp [updateSessionStatus, h]
  · intro sess r hc hr hf
    subst hf
    have hcache2 :
        lookupSession (setAssoc s.cache id { sess with status := st, updatedAt := now }) id
          = some { sess with status := st, updatedAt := now } :=
      lookupSession_setAssoc s.cache id _ sess hc
    have hrec2 :
        lookupSession (setAssoc s.records id { r with status := st, updatedAt := now + 1 }) id
          = some { r with status := st, updatedAt := now + 1 } :=
      lookupSession_setAssoc s.records id _ r hr
    refine ⟨?_, ?_, ?_⟩ <;>
      simp [updateSessionStatus, storageUpdateStatus, hc, hr, hcache2, hrec2]
  · intro sess hc hbad
    rcases hbad with hf | hrn
    · subst hf
      cases hr : lookupSession s.records id <;>
        simp [updateSessionStatus, storageUpdateStatus, hc, hr]
    · cases f <;> simp [updateSessionStatus, storageUpdateStatus, hc, hrn]

/-- Witness for the amended C5 theorem at concrete inputs: a successful
update writes Ready with fresh timestamps to both stores, and a failed write
leaves the records untouched while the cache has moved. -/
theorem updateSessionStatus_cases_witness :
    updateSessionStatus false sampleStores "s1" Status.ready 5
      = (Except.ok (),
         { cache := [("s1", { sampleLoadingSession with status := Status.ready, updatedAt := 5 })],
           records := [("s1", { sampleLoadingSession with status := Status.ready, updatedAt := 6 })] })
  ∧ (updateSessionStatus true sampleStores "s1" Status.ready 5).2.records
      = sampleStores.records := by
  constructor
  · have h := ((updateSessionStatus_cases false sampleStores "s1" Status.ready 5).2.1
      sampleLoadingSession sampleLoadingSession (by decide) (by decide) rfl).1
    rw [h]
    decide
  · exact ((updateSessionStatus_cases true sampleStores "s1" Status.ready 5).2.2
      sampleLoadingSession (by decide) (Or.inl rfl)).1

/-! ## Proxy operations AttachSession / SendInput / GetOutput (part_008
lines 326-369) -/

/-- orchestratorImpl.GetSession's read path: cache first, then storage; a
storage miss becomes a session-not-found error. The Go code also re-caches a
record fetched from storage; the proxy operations below are per-call models,
so the cache write-back is not threaded. -/
def getSessionRead (cache : List (String × Session))
    (storageGet : String → Except String Session) (id : String) :
    Except String Session :=
  match lookupSession cache id with
  | some s => Except.ok s
  | none =>
    match storageGet id with
    | Except.error _ => Except.error ("session not found: " ++ id)
    | Except.ok d => Except.ok d

/-- One call the orchestrator makes to the tmux Process Backend. -/
inductive BackendCall where
  | attach (id : String)
  | sendKeys (id : String) (input : String)
  | capturePane (id : String)
deriving Repr, DecidableEq

/-- Environment of the proxy operations: the cache, the storage fallback and
the tmux service answers. -/
structure ProxyEnv where
  cache : List (String × Session)
  storageGet : String → Except String Session
  tmuxAttach : String → Except String Unit
  tmuxSendKeys : String → String → Except String Unit
  tmuxCapturePane : String → Except String String

/-- orchestratorImpl.AttachSession: requires Status Ready or Running, else an
error without contacting the backend; otherwise proxies to
tmuxService.AttachSession. The second component lists the backend calls made. -/
def attachSession (env : ProxyEnv) (id : String) :
    Except String Unit × List BackendCall :=
  match getSessionRead env.cache env.storageGet id with
  | Except.error e => (Except.error e, [])
  | Except.ok s =>
    if s.status ≠ Status.ready ∧ s.status ≠ Status.running then
      (Except.error "session is not ready or running", [])
    else (env.tmuxAttach id, [BackendCall.attach id])

/-- orchestratorImpl.SendInput: same Ready/Running gate, then proxies to
tmuxService.SendKeys. -/
def sendInput (env : ProxyEnv) (id : String) (input : String) :
    Except String Unit × List BackendCall :=
  match getSessionRead env.cache env.storageGet id with
  | Except.error e => (Except.error e, [])
  | Except.ok s =>
    if s.status ≠ Status.ready ∧ s.status ≠ Status.running then
      (Except.error "session is not ready or running", [])
    else (env.tmuxSendKeys id input, [BackendCall.sendKeys id input])

/-- orchestratorImpl.GetOutput: rejects only a Paused session; any other
status (including Loading) proxies to tmuxService.CapturePane. -/
def getOutput (env : ProxyEnv) (id : String) :
    Except String String × List BackendCall :=
  match getSessionRead env.cache env.storageGet id with
  | Except.error e => (Except.error e, [])
  | Except.ok s =>
    if s.status = Status.paused then (Except.error "session is paused", [])
    else
      match env.tmuxCapturePane id with
      | Except.error _ => (Except.error "failed to capture output", [BackendCall.capturePane id])
      | Except.ok out => (Except.ok out, [BackendCall.capturePane id])

/-- A proxy environment whose single cached session is Loading. -/
def sampleProxyEnv : ProxyEnv :=
  { cache := [("s1", sampleLoadingSession)],
    storageGet := fun _ => Except.error "no storage",
    tmuxAttach := fun _ => Except.ok (),
    tmuxSendKeys := fun _ _ => Except.ok (),
    tmuxCapturePane := fun _ => Except.ok "captured" }

/-- C4 counterexample: the claim says GetOutput proxies to the Process
Backend if and only if the session status is Ready or Running, and returns a
precondition error without contacting the backend for any other status,
including Loading. On a Loading session GetOutput does contact the backend
(it issues a CapturePane call) and returns its output successfully, so the
claim is false for GetOutput. -/
theorem getOutput_proxies_while_loading :
    sampleLoadingSession.status = Status.loading
  ∧ getOutput sampleProxyEnv "s1"
      = (Except.ok "captured", [BackendCall.capturePane "s1"]) := by decide

/-- C4 amended: for an existing session, AttachSession and SendInput proxy to
the Process Backend if and only if the status is Ready or Running, returning
a precondition error without contacting the backend otherwise; GetOutput
instead rejects only a Paused session (precondition error, no backend
contact) and proxies to the backend for every other status, including
Loading. -/
theorem proxy_operations_status_gate (env : ProxyEnv) (id : String)
    (input : String) (s : Session)
    (hs : getSessionRead env.cache env.storageGet id = Except.ok s) :
    ((s.status = Status.ready ∨ s.status = Status.running) →
        attachSession env id = (env.tmuxAttach id, [BackendCall.attach id])
      ∧ sendInput env id input
          = (env.tmuxSendKeys id input, [BackendCall.sendKeys id input]))
  ∧ (s.status ≠ Status.ready → s.status ≠ Status.running →
        attachSession env id = (Except.error "session is not ready or running", [])
      ∧ sendInput env id input = (Except.error "session is not ready or running", []))
  ∧ (s.status = Status.paused →
        getOutput env id = (Except.error "session is paused", []))
  ∧ (s.status ≠ Status.paused →
        (getOutput env id).2 = [BackendCall.capturePane id]) := by
  refine ⟨?_, ?_, ?_, ?_⟩
  · intro hok
    have hcond : ¬ (s.status ≠ Status.ready ∧ s.status ≠ Status.running) := by
      rcases hok with h1 | h1 <;> simp [h1]
    constructor <;> simp [attachSession, sendInput, hs, if_neg hcond]
  · intro h1 h2
    constructor <;>
      simp [attachSession, sendInput, hs, if_pos (And.intro h1 h2)]
  · intro hp
    simp [getOutput, hs, hp]
  · intro hp
    cases hcap : env.tmuxCapturePane id <;> simp [getOutput, hs, if_neg hp, hcap]

/-- Witness for the amended C4 theorem on the Loading sample session: both
gated operations reject it without backend contact, while GetOutput proxies. -/
theorem proxy_operations_status_gate_witness :
    attachSession sampleProxyEnv "s1" = (Except.error "session is not ready or running", [])
  ∧ sendInput sampleProxyEnv "s1" "x" = (Except.error "session is not ready or running", [])
  ∧ (getOutput sampleProxyEnv "s1").2 = [BackendCall.capturePane "s1"] :=
  ⟨((proxy_operations_status_gate sampleProxyEnv "s1" "x" sampleLoadingSession
      (by decide)).2.1 (by decide) (by decide)).1,
   ((proxy_operations_status_gate sampleProxyEnv "s1" "x" sampleLoadingSession
      (by decide)).2.1 (by decide) (by decide)).2,
   (proxy_operations_status_gate sampleProxyEnv "s1" "x" sampleLoadingSession
      (by decide)).2.2.2 (by decide)⟩

/-! ## PauseSession / StartSession / ResumeSession (part_008 lines 176-228) -/

/-- GetSession as the lifecycle operations use it, with the cache write-back
on a storage fallback hit (part_008 lines 261-297). -/
def getSessionCaching (storageGet : String → Except String Session)
    (cache : List (String × Session)) (id : String) :
    Except String Session × List (String × Session) :=
  match lookupSession cache id with
  | some s => (Except.ok s, cache)
  | none =>
    match storageGet id with
    | Except.error _ => (Except.error ("session not found: " ++ id), cache)
    | Except.ok d => (Except.ok d, (id, d) :: cache)

/-- External outcomes PauseSession observes. Kill and remove failures are
logged and never block the transition, so the fields are present for
completeness but never steer control flow, exactly as in the Go code. -/
structure PauseEnv where
  tmuxKill : Except String Unit
  removeWorktree : Except String Unit
  failUpdate : Bool

/-- orchestratorImpl.PauseSession: get the session (error propagates), return
nil when already Paused, best-effort kill of the tmux session and removal of
the worktree (keeping the branch), then UpdateSessionStatus to Paused. -/
def pauseSession (env : PauseEnv) (storageGet : String → Except String Session)
    (s : OrchStores) (id : String) (now : Nat) : Except String Unit × OrchStores :=
  match getSessionCaching storageGet s.cache id with
  | (Except.error e, cache2) => (Except.error e, { s with cache := cache2 })
  | (Except.ok sess, cache2) =>
    let s2 := { s with cache := cache2 }
    if sess.status = Status.paused then (Except.ok (), s2)
    else updateSessionStatus env.failUpdate s2 id Status.paused now

/-- External outcomes StartSession observes. -/
structure StartEnv where
  createWorktree : Except String Unit
  tmuxCreate : Except String String
  failUpdate : Bool

/-- orchestratorImpl.StartSession: get the session, require Status Paused,
recreate the worktree from the stored branch, recreate the tmux session,
then UpdateSessionStatus to Ready. -/
def startSession (env : StartEnv) (storageGet : String → Except String Session)
    (s : OrchStores) (id : String) (now : Nat) : Except String Unit × OrchStores :=
  match getSessionCaching storageGet s.cache id with
  | (Except.error e, cache2) => (Except.error e, { s with cache := cache2 })
  | (Except.ok sess, cache2) =>
    let s2 := { s with cache := cache2 }
    if sess.status ≠ Status.paused then (Except.error "session is not paused", s2)
    else
      match env.createWorktree with
      | Except.error _ => (Except.error "failed to recreate worktree", s2)
      | Except.ok _ =>
        match env.tmuxCreate with
        | Except.error _ => (Except.error "failed to recreate tmux session", s2)
        | Except.ok _ => updateSessionStatus env.failUpdate s2 id Status.ready now

/-- orchestratorImpl.ResumeSession simply delegates to StartSession. -/
def resumeSession (env : StartEnv) (storageGet : String → Except String Session)
    (s : OrchStores) (id : String) (now : Nat) : Except String Unit × OrchStores :=
  startSession env storageGet s id now

/-- Shape of a successful UpdateSessionStatus on a session present in both
stores: helper shared by the lifecycle proofs. -/
theorem updateSessionStatus_ok (s : OrchStores) (id : String) (st : Status)
    (now : Nat) (sess r : Session) (hc : lookupSession s.cache id = some sess)
    (hr : lookupSession s.records id = some r) :
    updateSessionStatus false s id st now
      = (Except.ok (),
         { cache := setAssoc s.cache id { sess with status := st, updatedAt := now },
           records := setAssoc s.records id { r with status := st, updatedAt := now + 1 } }) := by
  simp [updateSessionStatus, storageUpdateStatus, hc, hr]

/-- C6: for a cached, persisted session whose status is Ready, PauseSession
followed by ResumeSession (with the recreation of worktree and tmux session
succeeding and the persistence writes succeeding) succeeds, drives the
cached status through Ready, Paused, Ready, and leaves Branch unchanged, as
well as ID, Title, Program, CreatedAt, AutoYes and Prompt; only Status and
UpdatedAt change. -/
theorem pause_then_resume_roundtrip (penv : PauseEnv) (senv : StartEnv)
    (storageGet : String → Except String Session) (s : OrchStores) (id : String)
    (t1 t2 : Nat) (sess r : Session)
    (hc : lookupSession s.cache id = some sess)
    (hr : lookupSession s.records id = some r)
    (hst : sess.status = Status.ready)
    (hpU : penv.failUpdate = false) (hsU : senv.failUpdate = false)
    (hwt : senv.createWorktree = Except.ok ())
    (htm : ∃ n, senv.tmuxCreate = Except.ok n) :
    (pauseSession penv storageGet s id t1).1 = Except.ok ()
  ∧ lookupSession (pauseSession penv storageGet s id t1).2.cache id
      = some { sess with status := Status.paused, updatedAt := t1 }
  ∧ (resumeSession senv storageGet (pauseSession penv storageGet s id t1).2 id t2).1
      = Except.ok ()
  ∧ lookupSession
      (resumeSession senv storageGet (pauseSession penv storageGet s id t1).2 id t2).2.cache id
      = some { sess with status := Status.ready, updatedAt := t2 }
  ∧ ({ sess with status := Status.ready, updatedAt := t2 }).branch = sess.branch
  ∧ ({ sess with status := Status.ready, updatedAt := t2 }).id = sess.id
  ∧ ({ sess with status := Status.ready, updatedAt := t2 }).title = sess.title
  ∧ ({ sess with status := Status.ready, updatedAt := t2 }).program = sess.program
  ∧ ({ sess with status := Status.ready, updatedAt := t2 }).createdAt = sess.createdAt
  ∧ ({ sess with status := Status.ready, updatedAt := t2 }).autoYes = sess.autoYes
  ∧ ({ sess with status := Status.ready, updatedAt := t2 }).prompt = sess.prompt := by
  obtain ⟨n, htm⟩ := htm
  have hnp : ¬ sess.status = Status.paused := by rw [hst]; exact fun h => by cases h
  have hpause : pauseSession penv storageGet s id t1
      = (Except.ok (),
         { cache := setAssoc s.cache id { sess with status := Status.paused, updatedAt := t1 },
           records := setAssoc s.records id { r with status := Status.paused, updatedAt := t1 + 1 } }) := by
    rw [pauseSession, getSessionCaching, hc]
    simp only [if_neg hnp, hpU]
    exact updateSessionStatus_ok s id Status.paused t1 sess r hc hr
  have hcache1 :
      lookupSession (setAssoc s.cache id { sess with status := Status.paused, updatedAt := t1 }) id
        = some { sess with status := Status.paused, updatedAt := t1 } :=
    lookupSession_setAssoc s.cache id _ sess hc
  have hrec1 :
      lookupSession (setAssoc s.records id { r with status := Status.paused, updatedAt := t1 + 1 }) id
        = some { r with status := Status.paused, updatedAt := t1 + 1 } :=
    lookupSession_setAssoc s.records id _ r hr
  have hresume : resumeSession senv storageGet (pauseSession penv storageGet s id t1).2 id t2
      = (Except.ok (),
         { cache := setAssoc
             (setAssoc s.cache id { sess with status := Status.paused, updatedAt := t1 }) id
             { sess with status := Status.ready, updatedAt := t2 },
           records := setAssoc
             (setAssoc s.records id { r with status := Status.paused, updatedAt := t1 + 1 }) id
             { r with status := Status.ready, updatedAt := t2 + 1 } }) := by
    rw [hpause]
    rw [resumeSession, startSession, getSessionCaching, hcache1]
    have hcond :
        ¬ (({ sess with status := Status.paused, updatedAt := t1 } : Session).status
            ≠ Status.paused) := by simp
    simp only [if_neg hcond, hwt, htm, hsU]
    have := updateSessionStatus_ok
      { cache := setAssoc s.cache id { sess with status := Status.paused, updatedAt := t1 },
        records := setAssoc s.records id { r with status := Status.paused, updatedAt := t1 + 1 } }
      id Status.ready t2 { sess with status := Status.paused, updatedAt := t1 }
      { r with status := Status.paused, updatedAt := t1 + 1 } hcache1 hrec1
    simpa using this
  refine ⟨by rw [hpause], by rw [hpause]; exact hcache1, by rw [hresume], ?_,
    rfl, rfl, rfl, rfl, rfl, rfl, rfl⟩
  rw [hresume]
  exact lookupSession_setAssoc _ id _ _ hcache1

/-- Witness for the C6 theorem on a concrete Ready session with succeeding
environments: pausing then resuming returns to Ready with the branch intact. -/
theorem pause_then_resume_roundtrip_witness :
    (pauseSession { tmuxKill := Except.ok (), removeWorktree := Except.ok (), failUpdate := false }
      (fun _ => Except.error "no storage")
      { cache := [("s1", { sampleLoadingSession with status := Status.ready })],
        records := [("s1", { sampleLoadingSession with status := Status.ready })] }
      "s1" 3).1 = Except.ok ()
  ∧ lookupSession
      (resumeSession
        { createWorktree := Except.ok (), tmuxCreate := Except.ok "csq_s1", failUpdate := false }
        (fun _ => Except.error "no storage")
        (pauseSession { tmuxKill := Except.ok (), removeWorktree := Except.ok (), failUpdate := false }
          (fun _ => Except.error "no storage")
          { cache := [("s1", { sampleLoadingSession with status := Status.ready })],
            records := [("s1", { sampleLoadingSession with status := Status.ready })] }
          "s1" 3).2 "s1" 4).2.cache "s1"
      = some { sampleLoadingSession with status := Status.ready, updatedAt := 4 } := by
  have h := pause_then_resume_roundtrip
    { tmuxKill := Except.ok (), removeWorktree := Except.ok (), failUpdate := false }
    { createWorktree := Except.ok (), tmuxCreate := Except.ok "csq_s1", failUpdate := false }
    (fun _ => Except.error "no storage")
    { cache := [("s1", { sampleLoadingSession with status := Status.ready })],
      records := [("s1", { sampleLoadingSession with status := Status.ready })] }
    "s1" 3 4
    { sampleLoadingSession with status := Status.ready }
    { sampleLoadingSession with status := Status.ready }
    (by decide) (by decide) rfl rfl rfl rfl ⟨"csq_s1", rfl⟩
  exact ⟨h.1, h.2.2.2.1⟩

/-! ## CreateSession (part_008 lines 66-174) -/

/-- CreateSessionRequest (services/session). -/
structure CreateSessionRequest where
  title : String
  path : String
  branch : String
  program : String
  height : Int
  width : Int
  autoYes : Bool
  prompt : String
deriving Repr, DecidableEq

/-- Outcomes of the external calls CreateSession makes, in program order.
createWorktree succeeding means the worktree exists at the requested derived
path (the git adapter creates the worktree at the requested worktreePath and
returns that path). removeWorktree and killSession are the rollback calls,
whose results the code ignores; a failing rollback call leaves the resource
alive. -/
structure CreateEnv where
  isGitRepository : Except String Bool
  createBranch : Except String Unit
  getCurrentBranch : Except String String
  createWorktree : Except String Unit
  tmuxCreateSession : Except String String
  sendKeys : Except String Unit
  storageCreate : Except String Unit
  removeWorktree : Except String Unit
  killSession : Except String Unit

/-- The external resources a CreateSession call can create: git worktrees,
tmux sessions and persisted records, as observable sets. -/
structure ExtResources where
  worktrees : List String
  tmuxSessions : List String
  records : List String
deriving Repr, DecidableEq

/-- Branch selection step of CreateSession (part_008 lines 88-99): create the
requested branch, or read the current branch when none was requested. -/
def branchStep (env : CreateEnv) (req : CreateSessionRequest) :
    Except String String :=
  if req.branch ≠ "" then
    match env.createBranch with
    | Except.error _ => Except.error "failed to create branch"
    | Except.ok _ => Except.ok req.branch
  else
    match env.getCurrentBranch with
    | Except.error _ => Except.error "failed to get current branch"
    | Except.ok b => Except.ok b

/-- orchestratorImpl.CreateSession: validation, git-repository check, id
generation from title and clock, branch step, worktree creation at the
derived path, tmux session creation (on failure the worktree is removed,
best-effort), optional initial prompt send (failure logged, not fatal),
persistence (on failure tmux session and worktree are both removed,
best-effort), then caching and the Loading session value. Error messages
keep the Go format strings without the wrapped causes. The grace-period
promotion goroutine is modelled separately as a timer event below. -/
def createSession (env : CreateEnv) (req : CreateSessionRequest) (now : Nat)
    (res : ExtResources) : Except String Session × ExtResources :=
  if req.title = "" then (Except.error "session title is required", res)
  else if req.path = "" then (Except.error "session path is required", res)
  else
    match env.isGitRepository with
    | Except.error _ => (Except.error "failed to check git repository", res)
    | Except.ok isRepo =>
      if isRepo = false then (Except.error "path is not a git repository", res)
      else
        let sessionID := req.title ++ "-" ++ toString now
        match branchStep env req with
        | Except.error e => (Except.error e, res)
        | Except.ok branch =>
          let worktreePath := req.path ++ "-worktree-" ++ sessionID
          match env.createWorktree with
          | Except.error _ => (Except.error "failed to create worktree", res)
          | Except.ok _ =>
            let res1 := { res with worktrees := worktreePath :: res.worktrees }
            match env.tmuxCreateSession with
            | Except.error _ =>
              let res2 := match env.removeWorktree with
                | Except.ok _ => { res1 with worktrees := res1.worktrees.erase worktreePath }
                | Except.error _ => res1
              (Except.error "failed to create tmux session", res2)
            | Except.ok tmuxName =>
              let res2 := { res1 with tmuxSessions := tmuxName :: res1.tmuxSessions }
              match env.storageCreate with
              | Except.error _ =>
                let res3 := match env.killSession with
                  | Except.ok _ => { res2 with tmuxSessions := res2.tmuxSessions.erase tmuxName }
                  | Except.error _ => res2
                let res4 := match env.removeWorktree with
                  | Except.ok _ => { res3 with worktrees := res3.worktrees.erase worktreePath }
                  | Except.error _ => res3
                (Except.error "failed to save session", res4)
              | Except.ok _ =>
                (Except.ok
                  { id := sessionID, title := req.title, path := worktreePath,
                    branch := branch, status := Status.loading, program := req.program,
                    height := req.height, width := req.width, createdAt := now,
                    updatedAt := now, autoYes := req.autoYes, prompt := req.prompt },
                 { res2 with records := sessionID :: res2.records })

/-- C1: in a CreateSession call that passes validation, the git check and the
branch step: if worktree creation fails nothing was created; if worktree
creation succeeded but tmux session creation fails, the worktree is removed
(rollback call succeeding) before the error returns; and if persistence
fails after both external resources were created, both the tmux session and
the worktree are torn down (rollback calls succeeding) before the error
returns. In each case the external resources after the failed call are
exactly those before it. -/
theorem createSession_rollback (env : CreateEnv) (req : CreateSessionRequest)
    (now : Nat) (res : ExtResources) (b : String)
    (htitle : req.title ≠ "") (hpath : req.path ≠ "")
    (hgit : env.isGitRepository = Except.ok true)
    (hbr : branchStep env req = Except.ok b) :
    ((∃ e, env.createWorktree = Except.error e) →
        createSession env req now res = (Except.error "failed to create worktree", res))
  ∧ (env.createWorktree = Except.ok () →
      (∃ e, env.tmuxCreateSession = Except.error e) →
      env.removeWorktree = Except.ok () →
        createSession env req now res = (Except.error "failed to create tmux session", res))
  ∧ (∀ n, env.createWorktree = Except.ok () →
      env.tmuxCreateSession = Except.ok n →
      (∃ e, env.storageCreate = Except.error e) →
      env.killSession = Except.ok () → env.removeWorktree = Except.ok () →
        createSession env req now res = (Except.error "failed to save session", res)) := by
  refine ⟨?_, ?_, ?_⟩
  · rintro ⟨e, hwt⟩
    simp [createSession, htitle, hpath, hgit, hbr, hwt]
  · rintro hwt ⟨e, htm⟩ hrm
    simp [createSession, htitle, hpath, hgit, hbr, hwt, htm, hrm,
      List.erase_cons_head]
  · rintro n hwt htm ⟨e, hst⟩ hkl hrm
    simp [createSession, htitle, hpath, hgit, hbr, hwt, htm, hst, hkl, hrm,
      List.erase_cons_head]

/-- A request and two failing environments used as concrete C1 witnesses. -/
def sampleCreateReq : CreateSessionRequest :=
  { title := "fix-bug", path := "/repo", branch := "", program := "echo hi",
    height := 0, width := 0, autoYes := false, prompt := "" }

/-- Environment in which tmux session creation fails after the worktree
succeeded, and the rollback removal succeeds. -/
def sampleEnvTmuxFail : CreateEnv :=
  { isGitRepository := Except.ok true, createBranch := Except.ok (),
    getCurrentBranch := Except.ok "main", createWorktree := Except.ok (),
    tmuxCreateSession := Except.error "tmux down", sendKeys := Except.ok (),
    storageCreate := Except.ok (), removeWorktree := Except.ok (),
    killSession := Except.ok () }

/-- Environment in which persistence fails after both external resources were
created, and both rollback calls succeed. -/
def sampleEnvStorageFail : CreateEnv :=
  { sampleEnvTmuxFail with
    tmuxCreateSession := Except.ok "csq_fix-bug",
    storageCreate := Except.error "disk full" }

/-- Witness for the C1 theorem: with one pre-existing resource of each kind,
both failing calls return an error with the resources exactly as before. -/
theorem createSession_rollback_witness :
    createSession sampleEnvTmuxFail sampleCreateReq 7
        { worktrees := ["w0"], tmuxSessions := ["t0"], records := ["r0"] }
      = (Except.error "failed to create tmux session",
         { worktrees := ["w0"], tmuxSessions := ["t0"], records := ["r0"] })
  ∧ createSession sampleEnvStorageFail sampleCreateReq 7
        { worktrees := ["w0"], tmuxSessions := ["t0"], records := ["r0"] }
      = (Except.error "failed to save session",
         { worktrees := ["w0"], tmuxSessions := ["t0"], records := ["r0"] }) :=
  ⟨(createSession_rollback sampleEnvTmuxFail sampleCreateReq 7
      { worktrees := ["w0"], tmuxSessions := ["t0"], records := ["r0"] } "main"
      (by decide) (by decide) rfl rfl).2.1 rfl ⟨"tmux down", rfl⟩ rfl,
   (createSession_rollback sampleEnvStorageFail sampleCreateReq 7
      { worktrees := ["w0"], tmuxSessions := ["t0"], records := ["r0"] } "main"
      (by decide) (by decide) rfl rfl).2.2 "csq_fix-bug" rfl rfl
      ⟨"disk full", rfl⟩ rfl rfl⟩

/-! ## Status state machine with the CreateSession grace timer (part_008
lines 167-171 and 371-385)

One session's lifetime is modelled as a labelled transition system. The
grace-period goroutine spawned by CreateSession sleeps and then calls
UpdateSessionStatus(id, StatusReady) unconditionally: UpdateSessionStatus
overwrites whatever status the session holds at that moment (it errors, and
changes nothing, only when the session is gone). PauseSession does not
cancel or consult the pending timer. -/

/-- One session's observable state: its stored status (none when no record
exists) and whether the CreateSession grace timer is still pending. -/
structure TimerState where
  status : Option Status
  timerPending : Bool
deriving Repr, DecidableEq

/-- The orchestrator events that can change a session's status. -/
inductive OrchEvent where
  | create
  | pause
  | resume
  | stop
  | timerFire
deriving Repr, DecidableEq

/-- Status transitions of one session. create yields Loading and arms the
timer; pause overwrites any status with Paused (a no-op on Paused, part_008
line 208) and leaves the timer pending; resume (StartSession with its
external recreations succeeding) requires Paused and yields Ready; stop
deletes the record; the timer event performs the goroutine's unconditional
UpdateSessionStatus to Ready on whatever status is current, or changes
nothing when the record is already gone. -/
inductive OrchStep : TimerState → OrchEvent → TimerState → Prop where
  | create :
      OrchStep { status := none, timerPending := false } OrchEvent.create
        { status := some Status.loading, timerPending := true }
  | pause (st : Status) (t : Bool) :
      OrchStep { status := some st, timerPending := t } OrchEvent.pause
        { status := some Status.paused, timerPending := t }
  | resume (t : Bool) :
      OrchStep { status := some Status.paused, timerPending := t } OrchEvent.resume
        { status := some Status.ready, timerPending := t }
  | stop (st : Status) (t : Bool) :
      OrchStep { status := some st, timerPending := t } OrchEvent.stop
        { status := none, timerPending := t }
  | timerFire (st : Status) :
      OrchStep { status := some st, timerPending := true } OrchEvent.timerFire
        { status := some Status.ready, timerPending := false }
  | timerFireGone :
      OrchStep { status := none, timerPending := true } OrchEvent.timerFire
        { status := none, timerPending := false }

/-- States reachable from the empty initial state through orchestrator
events. -/
def orchReachable (s : TimerState) : Prop :=
  Relation.ReflTransGen (fun a b => ∃ l, OrchStep a l b)
    { status := none, timerPending := false } s

/-- C3 counterexample: the claim says a session's status never changes from
Paused to Ready except through a Resume/Start call, and in particular that
the CreateSession grace timer never sets a paused session to Ready. The
state reached by CreateSession immediately followed by PauseSession is
Paused with the timer still pending, and the timer event then steps it
directly from Paused to Ready even though its label is not resume. -/
theorem timer_promotes_paused_session :
    orchReachable { status := some Status.paused, timerPending := true }
  ∧ OrchStep { status := some Status.paused, timerPending := true }
      OrchEvent.timerFire { status := some Status.ready, timerPending := false }
  ∧ OrchEvent.timerFire ≠ OrchEvent.resume := by
  refine ⟨?_, OrchStep.timerFire Status.paused, by decide⟩
  exact Relation.ReflTransGen.head ⟨OrchEvent.create, OrchStep.create⟩
    (Relation.ReflTransGen.single
      ⟨OrchEvent.pause, OrchStep.pause Status.loading true⟩)

/-- C3 amended: a step changing a session's status from Paused to Ready is
either a Resume/Start call or the firing of the still-pending CreateSession
grace timer; a session paused within the grace interval is therefore
promoted back to Ready by the timer, and after the timer has fired only
Resume can leave Paused. -/
theorem paused_to_ready_only_resume_or_timer (s s2 : TimerState) (l : OrchEvent)
    (h : OrchStep s l s2) (hp : s.status = some Status.paused)
    (hr : s2.status = some Status.ready) :
    l = OrchEvent.resume ∨ (l = OrchEvent.timerFire ∧ s.timerPending = true) := by
  cases h <;> simp_all

/-- Witness for the amended C3 theorem at the concrete timer step out of the
Paused state. -/
theorem paused_to_ready_only_resume_or_timer_witness :
    OrchEvent.timerFire = OrchEvent.resume
  ∨ (OrchEvent.timerFire = OrchEvent.timerFire
      ∧ ({ status := some Status.paused, timerPending := true } : TimerState).timerPending = true) :=
  paused_to_ready_only_resume_or_timer
    { status := some Status.paused, timerPending := true }
    { status := some Status.ready, timerPending := false }
    OrchEvent.timerFire (OrchStep.timerFire Status.paused) rfl rfl

/-! ## Bounded-concurrency semaphore of Execute / ExecuteStreaming
(exec_adapter.go lines 686-693 and 816-823)

concurrentSem is a buffered channel of capacity MaxConcurrent = k: a caller
holds a slot between its send and the matching receive, and the select lets
a blocked sender give up with ctx.Err() when its context is cancelled. The
callers are modelled by how many are blocked waiting for a slot, how many
hold a slot (their external process running), how many gave up cancelled and
how many completed. -/

/-- Counts of Execute callers in each phase. -/
structure SemState where
  waiting : Nat
  running : Nat
  cancelled : Nat
  finished : Nat
deriving Repr, DecidableEq

/-- Semaphore transitions with capacity k: a waiting caller acquires a slot
only while fewer than k are held; a waiting caller whose context is
cancelled leaves with ctx.Err(); a running caller completes its attempt
sequence and releases its slot. -/
inductive SemStep (k : Nat) : SemState → SemState → Prop where
  | acquire (s : SemState) : 0 < s.waiting → s.running < k →
      SemStep k s { s with waiting := s.waiting - 1, running := s.running + 1 }
  | cancel (s : SemState) : 0 < s.waiting →
      SemStep k s { s with waiting := s.waiting - 1, cancelled := s.cancelled + 1 }
  | finish (s : SemState) : 0 < s.running →
      SemStep k s { s with running := s.running - 1, finished := s.finished + 1 }

/-- States reachable from n concurrent Execute callers, none yet holding a
slot. -/
def semReachable (k n : Nat) (s : SemState) : Prop :=
  Relation.ReflTransGen (SemStep k)
    { waiting := n, running := 0, cancelled := 0, finished := 0 } s

/-- C9: starting from any number n of concurrent Execute callers against a
semaphore of capacity k, every reachable state has at most k external
processes running simultaneously, and in every reachable state any caller
still blocked waiting for a slot can be released with its context's error
by a cancellation step. -/
theorem execute_bounded_concurrency (k n : Nat) (s : SemState)
    (h : semReachable k n s) :
    s.running ≤ k
  ∧ (0 < s.waiting →
      SemStep k s { s with waiting := s.waiting - 1, cancelled := s.cancelled + 1 }) := by
  constructor
  · induction h with
    | refl => exact Nat.zero_le k
    | tail hab hbc ih =>
      cases hbc with
      | acquire hw hr => exact hr
      | cancel hw => exact ih
      | finish hr => exact le_trans (Nat.sub_le _ _) ih
  · exact fun hw => SemStep.cancel s hw

/-- Witness for the C9 theorem: at the initial state of 2 callers against
capacity 1, no process runs (0 ≤ 1) and a waiting caller can be cancelled. -/
theorem execute_bounded_concurrency_witness :
    ({ waiting := 2, running := 0, cancelled := 0, finished := 0 } : SemState).running ≤ 1
  ∧ SemStep 1 { waiting := 2, running := 0, cancelled := 0, finished := 0 }
      { waiting := 1, running := 0, cancelled := 1, finished := 0 } := by
  have h := execute_bounded_concurrency 1 2
    { waiting := 2, running := 0, cancelled := 0, finished := 0 }
    Relation.ReflTransGen.refl
  exact ⟨h.1, h.2 (by decide)⟩

end CSquad
